import Mathlib

/-!
Shallow embedding of the shape-to-geojson conversion script (src/index.js and
src/unnamed/part_000) and proofs of the specified properties.

Modelling conventions:
* JS byte buffers are represented by their decoded UTF-8 text (`Bytes := String`),
  the only observation the script itself makes of buffer contents; buffers handed
  to black-box libraries (shapefile reader) stay opaque.
* JS numbers never influence any verified property, so coordinate numbers are
  modelled as `Int`.
* Dynamically typed coordinate data is the inductive `JsVal` (number, `undefined`,
  or array), mirroring what the recursive `transformCoords` traversal can meet.
* External libraries (proj4, turf simplify, the shapefile reader) are parameters:
  the embedding quantifies over them, adding as hypotheses only the contracts a
  theorem needs.
* Thrown JS exceptions are modelled with `Except`.
-/

/-- Dynamic JS value reachable by the coordinate traversal: a number, the
`undefined` value, or an array. -/
inductive JsVal : Type where
  | num : Int → JsVal
  | undef : JsVal
  | arr : List JsVal → JsVal

/-- A thrown JS error: a `TypeError` raised by the script's own code
(calling `.map` on a non-array, destructuring a non-iterable), or an error
thrown by a library, carrying its message. -/
inductive JsErr : Type where
  | typeError : JsErr
  | thrown : String → JsErr
deriving DecidableEq, Repr

/-- A JS `Error` object as observed by the batch driver: only its message. -/
structure ErrorVal : Type where
  message : String
deriving DecidableEq, Repr

/-- Byte buffers, represented by their decoded UTF-8 text. -/
abbrev Bytes := String

/-- Substring test on character lists, used to model `String.prototype.includes`. -/
def hasSubList (pat : List Char) : List Char → Bool
  | [] => pat.isEmpty
  | c :: rest => pat.isPrefixOf (c :: rest) || hasSubList pat rest

/-- Model of JS `s.includes(pat)`. -/
def strIncludes (s pat : String) : Bool :=
  hasSubList pat.data s.data

/-- The chars after the last slash, modelling POSIX `path.basename(s)`. -/
def basenameChars (cs : List Char) : List Char :=
  (cs.reverse.takeWhile (fun c => c ≠ '/')).reverse

/-- Model of `path.basename(s)` (no extension argument). -/
def basenameOf (s : String) : String :=
  String.mk (basenameChars s.data)

/-- Model of `path.extname(s)`: the dot-led extension of the final name, empty
when the only dot is the leading one (or there is none). -/
def extnameOf (s : String) : String :=
  let cs := s.data
  if cs.tail.contains '.' then
    String.mk ('.' :: (cs.reverse.takeWhile (fun c => c ≠ '.')).reverse)
  else ""

/-- Lower-casing of a string, modelling JS `toLowerCase` on ASCII names. -/
def lowerStr (s : String) : String :=
  String.mk (s.data.map Char.toLower)

/-- Model of the extension-stripping in `path.basename(name, ext)`: the suffix
`ext` is removed only when it is literally (case-sensitively) a proper suffix. -/
def stripSuffixStr (s ext : String) : String :=
  if ext.data ≠ [] ∧ ext.data.isSuffixOf s.data ∧ ext.data.length < s.data.length then
    String.mk (s.data.take (s.data.length - ext.data.length))
  else s

-- Coordinate system constants of src/index.js.

/-- Constant `UTM_ZONE_47N` from src/index.js line 13. -/
def UTM_ZONE_47N : String := "+proj=utm +zone=47 +datum=WGS84 +units=m +no_defs"

/-- Constant `UTM_ZONE_48N` from src/index.js line 14. -/
def UTM_ZONE_48N : String := "+proj=utm +zone=48 +datum=WGS84 +units=m +no_defs"

/-- Constant `WGS84` from src/index.js line 15. -/
def WGS84 : String := "EPSG:4326"

/-- Function `parsePrjFile` from src/index.js lines 18-36: `none` models a missing (null
or undefined) buffer; the buffer's decoded text is scanned for CRS markers in
order, and returned unchanged when none matches. -/
def parsePrjFile (prjBuffer : Option Bytes) : Option String :=
  match prjBuffer with
  | none => none
  | some prjText =>
    if strIncludes prjText "UTM_Zone_47" || strIncludes prjText "UTM Zone 47" then
      some UTM_ZONE_47N
    else if strIncludes prjText "UTM_Zone_48" || strIncludes prjText "UTM Zone 48" then
      some UTM_ZONE_48N
    else if strIncludes prjText "GCS_WGS_1984" || strIncludes prjText "WGS 84" then
      some WGS84
    else
      some prjText

/-- Model of JS `x || dflt` applied to an `Option String`: `null` and the empty
string are falsy. -/
def jsOr (o : Option String) (dflt : String) : String :=
  match o with
  | none => dflt
  | some s => if s = "" then dflt else s

/-- Truthiness test of the `!sourceCRS` guard in `transformGeometry`. -/
def jsFalsy (o : Option String) : Bool :=
  match o with
  | none => true
  | some s => s = ""

/-- A GeoJSON geometry object as the script sees it: its `type` tag, its
`coordinates` value, and any remaining fields (opaque to the script, carried to
state the frame property of the shallow spread copy the code takes). -/
structure Geometry : Type where
  type : String
  coordinates : JsVal
  others : List (String × JsVal)

/-- The forward projection function `proj4(sourceCRS, WGS84).forward` is a
black box: any function from a coordinate value to a result or a thrown error. -/
abbrev ForwardFn := JsVal → Except JsErr JsVal

/-- A proj4-like library: from source and destination CRS strings, the
constructor `proj4(src, dst)` either yields a forward transform or throws —
the real proj4 throws on a CRS definition it cannot parse, the surfaced
failure spec §4.1 anticipates for raw unrecognized `.prj` text. -/
abbrev ProjLib := String → String → Except JsErr ForwardFn

/-- Whether a value is a coordinate position as proj4's sanity check accepts it:
an array whose first two elements are numbers. -/
def isPosition : JsVal → Bool
  | JsVal.arr (JsVal.num _ :: JsVal.num _ :: _) => true
  | _ => false

/-- The error-propagating `map` of the inner `transformCoords` recursion:
`coords.map((c) => transformCoords(c, depth - 1))`, where a thrown error aborts
the whole call. -/
def mapExcept (f : JsVal → Except JsErr JsVal) : List JsVal → Except JsErr (List JsVal)
  | [] => Except.ok []
  | c :: cs =>
    match f c with
    | Except.error e => Except.error e
    | Except.ok v =>
      match mapExcept f cs with
      | Except.error e => Except.error e
      | Except.ok vs => Except.ok (v :: vs)

/-- Function `transformCoords` from src/index.js lines 46-55, with the captured
`transform.forward` passed explicitly. At depth 0 the code runs
`const [x, y] = transform.forward(coords); return [x, y]`: destructuring a
non-array result throws a `TypeError`, a short array fills with `undefined`.
At positive depth, `coords.map` on a non-array throws a `TypeError`. -/
def transformCoordsFn (t : ForwardFn) : Nat → JsVal → Except JsErr JsVal
  | 0 => fun coords =>
    match t coords with
    | Except.error e => Except.error e
    | Except.ok (JsVal.arr (x :: y :: _)) => Except.ok (JsVal.arr [x, y])
    | Except.ok (JsVal.arr [x]) => Except.ok (JsVal.arr [x, JsVal.undef])
    | Except.ok (JsVal.arr []) => Except.ok (JsVal.arr [JsVal.undef, JsVal.undef])
    | Except.ok _ => Except.error JsErr.typeError
  | d + 1 => fun coords =>
    match coords with
    | JsVal.arr cs =>
      match mapExcept (transformCoordsFn t d) cs with
      | Except.error e => Except.error e
      | Except.ok vs => Except.ok (JsVal.arr vs)
    | _ => Except.error JsErr.typeError

/-- One `transformed.coordinates = transformCoords(geometry.coordinates, d)`
assignment of the switch in `transformGeometry`: the coordinates are rewritten
at depth `d` inside the shallow copy of the geometry, a thrown error escaping. -/
def runDepth (t : ForwardFn) (geometry : Geometry) (d : Nat) : Except JsErr Geometry :=
  match transformCoordsFn t d geometry.coordinates with
  | Except.error e => Except.error e
  | Except.ok c => Except.ok { geometry with coordinates := c }

/-- Function `transformGeometry` from src/index.js lines 39-77: identity when the source
CRS is falsy or already WGS84; otherwise `const transform = proj4(sourceCRS,
WGS84)` runs first — before the kind switch, so a constructor throw escapes for
every kind — then the coordinates are rewritten at the depth fixed by the
geometry kind, the other fields being kept by the shallow copy; an
unrecognized kind falls through the switch untouched. -/
def transformGeometry (proj : ProjLib) (geometry : Geometry) (sourceCRS : Option String) :
    Except JsErr Geometry :=
  if jsFalsy sourceCRS || sourceCRS == some WGS84 || sourceCRS == some "EPSG:4326" then
    Except.ok geometry
  else
    match sourceCRS with
    | none => Except.ok geometry
    | some crs =>
      match proj crs WGS84 with
      | Except.error e => Except.error e
      | Except.ok transform =>
        match geometry.type with
        | "Point" => runDepth transform geometry 0
        | "LineString" => runDepth transform geometry 1
        | "MultiPoint" => runDepth transform geometry 1
        | "Polygon" => runDepth transform geometry 2
        | "MultiLineString" => runDepth transform geometry 2
        | "MultiPolygon" => runDepth transform geometry 3
        | _ => Except.ok geometry

/-- The per-kind nesting depth of the switch in `transformGeometry` (spec §3):
`none` for unrecognized kinds. -/
def geometryDepth : String → Option Nat
  | "Point" => some 0
  | "LineString" => some 1
  | "MultiPoint" => some 1
  | "Polygon" => some 2
  | "MultiLineString" => some 2
  | "MultiPolygon" => some 3
  | _ => none

/-- Whether a coordinate value has exactly the nesting shape expected at a
given depth: at depth 0 a position, at depth `d+1` an array of values of
depth `d`. -/
def depthMatches : Nat → JsVal → Bool
  | 0, v => isPosition v
  | d + 1, JsVal.arr cs => cs.all (depthMatches d)
  | _ + 1, _ => false

/-- A GeoJSON feature as read from the shapefile stream: optional geometry and
opaque attribute properties. -/
structure Feature : Type where
  type : String
  geometry : Option Geometry
  properties : List (String × JsVal)

/-- The options object handed to turf `simplify` on src/index.js lines 174-177. -/
structure SimplifyOpts : Type where
  tolerance : Rat
  highQuality : Bool

/-- Constant `SIMPLIFY_TOLERANCE` from src/index.js line 9. -/
def SIMPLIFY_TOLERANCE : Rat := 1 / 1000

/-- Constant `ENABLE_SIMPLIFY` from src/index.js line 10. -/
def ENABLE_SIMPLIFY : Bool := true

/-- The turf `simplify` library is a black box: a feature and options in, a
feature out. -/
abbrev SimplifyLib := Feature → SimplifyOpts → Feature

/-- The per-record body of the read loop, src/index.js lines 155-186: when the
feature carries a geometry, reproject it with the resolved CRS (falling back to
UTM Zone 47N through `||`), then simplify it when enabled and the transformed
kind is a line or polygon kind. -/
def processFeature (proj : ProjLib) (simplifyLib : SimplifyLib)
    (sourceCRS : Option String) (feature : Feature) : Except JsErr Feature :=
  match feature.geometry with
  | none => Except.ok feature
  | some geom =>
    match transformGeometry proj geom (some (jsOr sourceCRS UTM_ZONE_47N)) with
    | Except.error e => Except.error e
    | Except.ok g =>
      let f : Feature := { feature with geometry := some g }
      if ENABLE_SIMPLIFY && (g.type == "Polygon" || g.type == "MultiPolygon" ||
          g.type == "LineString" || g.type == "MultiLineString") then
        let simplified := simplifyLib f { tolerance := SIMPLIFY_TOLERANCE, highQuality := true }
        Except.ok { f with geometry := simplified.geometry }
      else
        Except.ok f

-- Archive grouping, src/index.js lines 111-135.

/-- One extracted archive member: its header name and, when extraction
succeeded, its bytes. -/
structure RarFile : Type where
  name : String
  extraction : Option Bytes

/-- The recognized shapefile extensions of src/index.js line 116. -/
def recognizedExts : List String := [".shp", ".shx", ".dbf", ".prj", ".cpg"]

/-- Setting a key of a JS object modelled as an insertion-ordered association
list: an existing key is overwritten in place, a new key is appended. -/
def setKey {β : Type} (k : String) (v : β) : List (String × β) → List (String × β)
  | [] => [(k, v)]
  | (k', v') :: rest => if k' = k then (k', v) :: rest else (k', v') :: setKey k v rest

/-- Reading a key of a JS object modelled as an association list. -/
def lookupKey {β : Type} (k : String) : List (String × β) → Option β
  | [] => none
  | (k', v) :: rest => if k' = k then some v else lookupKey k rest

/-- A shapefile component set: lowercased extension to buffer. -/
abbrev FileSet := List (String × Bytes)

/-- The loop body of src/index.js lines 111-124: a member with a recognized
extension (compared lowercased) is stored under `path.basename(fileName, ext)`
— which strips the lowercased extension only when it is literally a suffix —
keyed by its lowercased extension. -/
def addFile (shapeFiles : List (String × FileSet)) (file : RarFile) :
    List (String × FileSet) :=
  match file.extraction with
  | none => shapeFiles
  | some data =>
    let fileName := basenameOf file.name
    let ext := lowerStr (extnameOf fileName)
    if recognizedExts.contains ext then
      let baseName := stripSuffixStr fileName ext
      let fileSet := (lookupKey baseName shapeFiles).getD []
      setKey baseName (setKey ext data fileSet) shapeFiles
    else
      shapeFiles

/-- The grouping of src/index.js lines 109-124 over all extracted members. -/
def buildShapeFiles (files : List RarFile) : List (String × FileSet) :=
  files.foldl addFile []

/-- The completeness test of src/index.js line 130: `fileSet[".shp"] &&
fileSet[".dbf"]` (present buffers are always truthy). -/
def isComplete (fileSet : FileSet) : Bool :=
  (lookupKey ".shp" fileSet).isSome && (lookupKey ".dbf" fileSet).isSome

/-- The component sets the conversion loop actually converts. -/
def convertedEntries (files : List RarFile) : List (String × FileSet) :=
  (buildShapeFiles files).filter (fun p => isComplete p.2)

/-- The base names the conversion loop converts, in loop order. -/
def convertedNames (files : List RarFile) : List String :=
  (convertedEntries files).map Prod.fst

/-- Spec-side grouping loop body (spec §4.3: "group by base filename (extension
stripped)"): identical to `addFile` except that the key strips the member's
actual extension rather than its lowercased form. -/
def specAddFile (shapeFiles : List (String × FileSet)) (file : RarFile) :
    List (String × FileSet) :=
  match file.extraction with
  | none => shapeFiles
  | some data =>
    let fileName := basenameOf file.name
    let ext := lowerStr (extnameOf fileName)
    if recognizedExts.contains ext then
      let baseName := stripSuffixStr fileName (extnameOf fileName)
      let fileSet := (lookupKey baseName shapeFiles).getD []
      setKey baseName (setKey ext data fileSet) shapeFiles
    else
      shapeFiles

/-- Spec-side grouping over all extracted members. -/
def specBuildShapeFiles (files : List RarFile) : List (String × FileSet) :=
  files.foldl specAddFile []

/-- Spec-side convertible base names: sets with both `.shp` and `.dbf`. -/
def specConvertedNames (files : List RarFile) : List String :=
  ((specBuildShapeFiles files).filter (fun p => isComplete p.2)).map Prod.fst

-- Output assembly, src/index.js lines 188-217.

/-- The `geojson` object built on src/index.js lines 188-191. -/
structure FeatureCollection : Type where
  type : String
  features : List Feature

/-- One entry of the `results` array: the set's base name and its collection. -/
structure NamedResult : Type where
  name : String
  geojson : FeatureCollection

/-- The JSON value handed to `JSON.stringify` on src/index.js lines 204-217:
either one FeatureCollection directly, or the name-keyed combined object. -/
inductive OutDoc : Type where
  | single : FeatureCollection → OutDoc
  | combined : List (String × FeatureCollection) → OutDoc

/-- One `writeFile(outputJsonPath, JSON.stringify(doc, null, indent))` call. -/
structure WriteCall : Type where
  doc : OutDoc
  indent : Nat

/-- The output branch of src/index.js lines 204-217: exactly one result writes
its FeatureCollection directly; otherwise the results are folded into a
name-keyed object. Both branches stringify with indent 2. -/
def outputWrite (results : List NamedResult) : WriteCall :=
  if results.length = 1 then
    { doc := OutDoc.single ((results.headD { name := "", geojson := { type := "", features := [] } }).geojson),
      indent := 2 }
  else
    { doc := OutDoc.combined (results.foldl (fun m r => setKey r.name r.geojson m) []),
      indent := 2 }

/-- The conversion-and-write phase after extraction (src/index.js lines
126-217), with the per-set shapefile reading abstracted: each complete set is
converted in order (a thrown error aborting the phase), then the combined
output value is written. -/
def convertPhase (processSet : String → FileSet → Except ErrorVal NamedResult)
    (files : List RarFile) : Except ErrorVal WriteCall :=
  match (convertedEntries files).mapM (fun p => processSet p.1 p.2) with
  | Except.error e => Except.error e
  | Except.ok results => Except.ok (outputWrite results)

-- Batch driver, src/index.js lines 227-260.

/-- One configured batch input. -/
structure SourceItem : Type where
  url : String
  outputPath : String
deriving DecidableEq, Repr

/-- The terminal status recorded for a batch item. -/
inductive Status : Type where
  | success : Status
  | failed : Status
deriving DecidableEq, Repr

/-- One entry of the driver's `results` array. -/
structure Outcome : Type where
  url : String
  outputPath : String
  status : Status
  error : Option String
deriving DecidableEq, Repr

/-- Function `batchConvert` from src/index.js lines 227-260, with the per-item pipeline
abstracted as a fallible function: each item is processed in order inside a
`try`/`catch`, a failure being downgraded to a `failed` record carrying the
error's message; the driver itself always returns its outcome list. -/
def batchConvert (convert : String → String → Except ErrorVal Unit)
    (sources : List SourceItem) : List Outcome :=
  sources.map (fun s =>
    match convert s.url s.outputPath with
    | Except.ok _ => { url := s.url, outputPath := s.outputPath, status := Status.success, error := none }
    | Except.error e => { url := s.url, outputPath := s.outputPath, status := Status.failed, error := some e.message })

/-- The outcome the spec predicts for one item given its pipeline result. -/
def itemOutcome (convert : String → String → Except ErrorVal Unit) (s : SourceItem) : Outcome :=
  match convert s.url s.outputPath with
  | Except.ok _ => { url := s.url, outputPath := s.outputPath, status := Status.success, error := none }
  | Except.error e => { url := s.url, outputPath := s.outputPath, status := Status.failed, error := some e.message }

-- Concrete instances used to evaluate the theorems on closed inputs.

/-- A forward transform stand-in for concrete evaluations: it enforces proj4's
input sanity check (an accepted coordinate is an array led by two numbers,
anything else throws) and otherwise returns the position unchanged. -/
def checkForward : ForwardFn := fun v =>
  if isPosition v then Except.ok v
  else Except.error (JsErr.thrown "coordinates must be finite numbers")

/-- A proj4 stand-in whose construction accepts every CRS string, yielding the
sanity-checking forward transform. -/
def projCheck : ProjLib := fun _src _dst => Except.ok checkForward

/-- A proj4 stand-in that, like the real proj4 constructor, throws on a CRS
definition it cannot parse: it accepts the script's two UTM definitions and
the EPSG code, and throws on anything else. -/
def projStrict : ProjLib := fun src _dst =>
  if src = UTM_ZONE_47N ∨ src = UTM_ZONE_48N ∨ src = "EPSG:4326" then
    Except.ok checkForward
  else
    Except.error (JsErr.thrown ("Could not parse to valid json: " ++ src))

/-- A simplify stand-in for concrete evaluations: the identity on features. -/
def demoSimplify : SimplifyLib := fun f _ => f

/-- A Point geometry with a well-shaped coordinate pair and an extra field. -/
def demoPointGeom : Geometry :=
  { type := "Point",
    coordinates := JsVal.arr [JsVal.num 650000, JsVal.num 1600000],
    others := [("bbox", JsVal.undef)] }

/-- A Point geometry whose coordinates are nested one level too deep. -/
def demoBadPoint : Geometry :=
  { type := "Point",
    coordinates := JsVal.arr [JsVal.arr [JsVal.num 1, JsVal.num 2]],
    others := [] }

/-- A geometry of an unrecognized kind. -/
def demoOddGeom : Geometry :=
  { type := "GeometryCollection", coordinates := JsVal.num 7, others := [] }

/-- A feature carrying `demoPointGeom`. -/
def demoFeature : Feature :=
  { type := "Feature", geometry := some demoPointGeom,
    properties := [("soil", JsVal.num 5)] }

/-- Two members whose shapefile extensions are uppercase. -/
def cxUpperFiles : List RarFile :=
  [{ name := "A.SHP", extraction := some "s" },
   { name := "A.DBF", extraction := some "d" }]

/-- An archive with one complete lowercase set `a`, a lone `b.shx`, and an
unrecognized member whose extension is not lowercase. -/
def demoArchive : List RarFile :=
  [{ name := "dir/a.shp", extraction := some "s" },
   { name := "a.dbf", extraction := some "d" },
   { name := "b.shx", extraction := some "x" },
   { name := "README.TXT", extraction := some "r" }]

/-- An archive whose only member is an index file: no complete set. -/
def demoShxOnly : List RarFile :=
  [{ name := "b.shx", extraction := some "x" }]

/-- An empty feature collection. -/
def demoFC : FeatureCollection := { type := "FeatureCollection", features := [] }

/-- A single-result list. -/
def demoResults1 : List NamedResult := [{ name := "a", geojson := demoFC }]

/-- A two-result list with distinct names. -/
def demoResults2 : List NamedResult :=
  [{ name := "a", geojson := demoFC }, { name := "b", geojson := demoFC }]

/-- A per-set conversion stand-in returning an empty collection. -/
def demoProcessSet : String → FileSet → Except ErrorVal NamedResult :=
  fun n _ => Except.ok { name := n, geojson := demoFC }

/-- A pipeline stand-in whose fetch of `u2` fails with HTTP 404. -/
def demoConvert : String → String → Except ErrorVal Unit := fun url _out =>
  if url = "u2" then Except.error { message := "HTTP error! status: 404" }
  else Except.ok ()

/-- Three configured batch items. -/
def demoSources : List SourceItem :=
  [{ url := "u1", outputPath := "o1" },
   { url := "u2", outputPath := "o2" },
   { url := "u3", outputPath := "o3" }]

/-- Claim C1: for an absent `.prj` buffer `parsePrjFile` returns absent; a text
with a "UTM Zone 47" marker (underscore or space form) yields the UTM Zone 47N
identifier; a "UTM Zone 48" marker yields UTM Zone 48N when no earlier marker
matched; a WGS84 marker ("GCS_WGS_1984" or "WGS 84") yields the WGS84
identifier when no earlier marker matched; a text matching no marker is
returned unchanged. -/
theorem parsePrjFile_markers (s : String) :
    parsePrjFile none = none ∧
    ((strIncludes s "UTM_Zone_47" || strIncludes s "UTM Zone 47") = true →
      parsePrjFile (some s) = some UTM_ZONE_47N) ∧
    ((strIncludes s "UTM_Zone_47" || strIncludes s "UTM Zone 47") = false →
      (strIncludes s "UTM_Zone_48" || strIncludes s "UTM Zone 48") = true →
      parsePrjFile (some s) = some UTM_ZONE_48N) ∧
    ((strIncludes s "UTM_Zone_47" || strIncludes s "UTM Zone 47") = false →
      (strIncludes s "UTM_Zone_48" || strIncludes s "UTM Zone 48") = false →
      (strIncludes s "GCS_WGS_1984" || strIncludes s "WGS 84") = true →
      parsePrjFile (some s) = some WGS84) ∧
    ((strIncludes s "UTM_Zone_47" || strIncludes s "UTM Zone 47") = false →
      (strIncludes s "UTM_Zone_48" || strIncludes s "UTM Zone 48") = false →
      (strIncludes s "GCS_WGS_1984" || strIncludes s "WGS 84") = false →
      parsePrjFile (some s) = some s) := by
  refine ⟨rfl, fun h1 => ?_, fun h1 h2 => ?_, fun h1 h2 h3 => ?_, fun h1 h2 h3 => ?_⟩ <;>
    simp [parsePrjFile, *]

/-- Witness for C1 at concrete `.prj` texts, one per marker family and one
unrecognized. -/
theorem parsePrjFile_markers_witness :
    parsePrjFile (some "PROJCS[WGS_1984_UTM_Zone_47N]") = some UTM_ZONE_47N ∧
    parsePrjFile (some "PROJCS[WGS_1984_UTM_Zone_48N]") = some UTM_ZONE_48N ∧
    parsePrjFile (some "GEOGCS[GCS_WGS_1984]") = some WGS84 ∧
    parsePrjFile (some "LOCAL_CS[unknown]") = some "LOCAL_CS[unknown]" :=
  ⟨(parsePrjFile_markers "PROJCS[WGS_1984_UTM_Zone_47N]").2.1 (by decide),
   (parsePrjFile_markers "PROJCS[WGS_1984_UTM_Zone_48N]").2.2.1 (by decide) (by decide),
   (parsePrjFile_markers "GEOGCS[GCS_WGS_1984]").2.2.2.1 (by decide) (by decide) (by decide),
   (parsePrjFile_markers "LOCAL_CS[unknown]").2.2.2.2 (by decide) (by decide) (by decide)⟩

/-- Claim C2: reprojection is the identity when the source CRS already denotes
WGS84 or is absent. -/
theorem transformGeometry_identity (proj : ProjLib) (g : Geometry) :
    transformGeometry proj g (some WGS84) = Except.ok g ∧
    transformGeometry proj g none = Except.ok g := by
  exact ⟨rfl, rfl⟩

theorem runDepth_frame (t : ForwardFn) (g : Geometry) (d : Nat) (g' : Geometry)
    (h : runDepth t g d = Except.ok g') : g'.type = g.type ∧ g'.others = g.others := by
  unfold runDepth at h
  cases hc : transformCoordsFn t d g.coordinates with
  | error e => rw [hc] at h; exact Except.noConfusion h
  | ok c => rw [hc] at h; injection h with h; subst h; exact ⟨rfl, rfl⟩

/-- Claim C4: whatever the projection library does, a successful
`transformGeometry` returns a geometry whose fields other than `coordinates`
are those of the input; the input itself is untouched (the embedding is pure,
mirroring the shallow copy the code takes before any assignment). -/
theorem transformGeometry_frame (proj : ProjLib) (g g' : Geometry) (sourceCRS : Option String)
    (hne : ¬ (jsFalsy sourceCRS = true ∨ sourceCRS = some WGS84))
    (h : transformGeometry proj g sourceCRS = Except.ok g') :
    g'.type = g.type ∧ g'.others = g.others := by
  unfold transformGeometry at h
  split at h
  · injection h with h; subst h; exact ⟨rfl, rfl⟩
  · split at h
    · injection h with h; subst h; exact ⟨rfl, rfl⟩
    · split at h
      · exact Except.noConfusion h
      · split at h
        any_goals exact runDepth_frame _ _ _ _ h
        injection h with h; subst h; exact ⟨rfl, rfl⟩

/-- Witness for C4: a concrete point, projection stand-in and UTM source. -/
theorem transformGeometry_frame_witness :
    transformGeometry projCheck demoPointGeom (some UTM_ZONE_47N) = Except.ok demoPointGeom ∧
    demoPointGeom.type = demoPointGeom.type ∧ demoPointGeom.others = demoPointGeom.others :=
  ⟨rfl, transformGeometry_frame projCheck demoPointGeom demoPointGeom (some UTM_ZONE_47N)
    (by decide) rfl⟩

/-- Counterexample to claim C5 as stated: `const transform = proj4(sourceCRS,
WGS84)` runs before the switch on the geometry kind, so a source CRS the
projection library cannot parse (for instance unrecognized `.prj` text passed
through raw) makes `transformGeometry` throw even for a geometry of an
unrecognized kind — the claim's "does not raise an error for every source CRS"
fails. -/
theorem unknown_kind_crs_counterexample :
    demoOddGeom.type ∉ ["Point", "LineString", "MultiPoint", "Polygon", "MultiLineString",
      "MultiPolygon"] ∧
    transformGeometry projStrict demoOddGeom (some "LOCAL_CS[unknown]") =
      Except.error (JsErr.thrown "Could not parse to valid json: LOCAL_CS[unknown]") :=
  ⟨by decide, rfl⟩

/-- Claim C5 as amended: a geometry whose kind is none of the six recognized
kinds passes through `transformGeometry` completely untouched and without
error for every source CRS that is absent or whose proj4 construction
succeeds; for a present source CRS the constructor runs before the kind
switch, so an unparseable CRS raises the constructor's error regardless of
kind. -/
theorem transformGeometry_unknown_kind (proj : ProjLib) (g : Geometry) (sourceCRS : Option String)
    (h : g.type ∉ ["Point", "LineString", "MultiPoint", "Polygon", "MultiLineString",
      "MultiPolygon"])
    (hcons : ∀ crs, sourceCRS = some crs → ∃ t, proj crs WGS84 = Except.ok t) :
    transformGeometry proj g sourceCRS = Except.ok g := by
  obtain ⟨ty, co, oth⟩ := g
  simp only [List.mem_cons, List.mem_singleton, not_or] at h
  cases sourceCRS with
  | none => rfl
  | some crs =>
    obtain ⟨t, htc⟩ := hcons crs rfl
    unfold transformGeometry
    split
    · rfl
    · dsimp only
      rw [htc]
      split <;> simp_all

/-- Witness for C5 as amended: a GeometryCollection-typed value is returned
unchanged under a fallible constructor that accepts the UTM 47N definition. -/
theorem transformGeometry_unknown_kind_witness :
    transformGeometry projStrict demoOddGeom (some UTM_ZONE_47N) = Except.ok demoOddGeom :=
  transformGeometry_unknown_kind projStrict demoOddGeom (some UTM_ZONE_47N) (by decide)
    (fun crs hc => by
      injection hc with hc
      subst hc
      exact ⟨checkForward, rfl⟩)

theorem transformCoordsFn_mismatch_error (t : ForwardFn)
    (ht : ∀ v, isPosition v = false → ∃ e, t v = Except.error e) :
    ∀ (d : Nat) (v : JsVal), depthMatches d v = false →
      ∃ e, transformCoordsFn t d v = Except.error e := by
  intro d
  induction d with
  | zero =>
    intro v hv
    obtain ⟨e, he⟩ := ht v hv
    exact ⟨e, by simp [transformCoordsFn, he]⟩
  | succ d ih =>
    intro v hv
    cases v with
    | num n => exact ⟨JsErr.typeError, rfl⟩
    | undef => exact ⟨JsErr.typeError, rfl⟩
    | arr cs =>
      simp only [depthMatches] at hv
      induction cs with
      | nil => simp at hv
      | cons c cs ihc =>
        rw [List.all_cons, Bool.and_eq_false_iff] at hv
        cases hv with
        | inl hc =>
          obtain ⟨e, he⟩ := ih c hc
          exact ⟨e, by simp [transformCoordsFn, mapExcept, he]⟩
        | inr hcs =>
          obtain ⟨e2, he2⟩ := ihc hcs
          cases hc : transformCoordsFn t d c with
          | error e => exact ⟨e, by simp [transformCoordsFn, mapExcept, hc]⟩
          | ok v0 =>
            have htail : mapExcept (transformCoordsFn t d) cs = Except.error e2 := by
              simp only [transformCoordsFn] at he2
              cases hm : mapExcept (transformCoordsFn t d) cs with
              | error e3 => rw [hm] at he2; injection he2 with he2; rw [he2]
              | ok vs => rw [hm] at he2; exact Except.noConfusion he2
            exact ⟨e2, by simp [transformCoordsFn, mapExcept, hc, htail]⟩

theorem geometryDepth_cases (ty : String) (d : Nat) (h : geometryDepth ty = some d) :
    (ty = "Point" ∧ d = 0) ∨ (ty = "LineString" ∧ d = 1) ∨ (ty = "MultiPoint" ∧ d = 1) ∨
    (ty = "Polygon" ∧ d = 2) ∨ (ty = "MultiLineString" ∧ d = 2) ∨
    (ty = "MultiPolygon" ∧ d = 3) := by
  unfold geometryDepth at h
  split at h <;> simp_all

/-- Claim C3: a geometry of a recognized kind whose coordinate nesting does not
match the kind's fixed depth makes `transformGeometry` throw, given a
non-identity source CRS and a projection library whose successfully constructed
forward transform, like proj4's sanity check, throws on anything that is not a
numeric coordinate pair (when the construction itself throws, that error
escapes instead): no silent truncation or corrupted output is possible. -/
theorem transformGeometry_mismatch_error (proj : ProjLib) (g : Geometry) (crs : String)
    (d : Nat) (hd : geometryDepth g.type = some d)
    (hv : depthMatches d g.coordinates = false)
    (ht : ∀ t, proj crs WGS84 = Except.ok t →
      ∀ v, isPosition v = false → ∃ e, t v = Except.error e)
    (h1 : crs ≠ "") (h2 : crs ≠ "EPSG:4326") :
    ∃ e, transformGeometry proj g (some crs) = Except.error e := by
  have hcond : (jsFalsy (some crs) || (some crs == some WGS84) ||
      (some crs == some "EPSG:4326")) = false := by
    simp [jsFalsy, WGS84, h1, h2]
  cases htc : proj crs WGS84 with
  | error e0 =>
    refine ⟨e0, ?_⟩
    simp only [transformGeometry, hcond, Bool.false_eq_true, if_false]
    rw [htc]
  | ok t =>
    obtain ⟨e, he⟩ := transformCoordsFn_mismatch_error t (ht t htc) d g.coordinates hv
    have hrun : runDepth t g d = Except.error e := by
      simp [runDepth, he]
    obtain ⟨ty, co, oth⟩ := g
    rcases geometryDepth_cases ty d hd with ⟨hty, hdd⟩ | ⟨hty, hdd⟩ | ⟨hty, hdd⟩ |
      ⟨hty, hdd⟩ | ⟨hty, hdd⟩ | ⟨hty, hdd⟩ <;> subst hty <;> subst hdd <;>
      exact ⟨e, by
        simp only [transformGeometry, hcond, Bool.false_eq_true, if_false]
        rw [htc]
        exact hrun⟩

/-- Witness for C3: a Point whose coordinates are nested one level too deep,
against the sanity-checking projection stand-in. -/
theorem transformGeometry_mismatch_error_witness :
    (geometryDepth demoBadPoint.type = some 0 ∧
      depthMatches 0 demoBadPoint.coordinates = false) ∧
    ∃ e, transformGeometry projCheck demoBadPoint (some UTM_ZONE_47N) = Except.error e :=
  ⟨⟨rfl, rfl⟩,
    transformGeometry_mismatch_error projCheck demoBadPoint UTM_ZONE_47N 0 rfl rfl
      (fun t htc v hv => ⟨JsErr.thrown "coordinates must be finite numbers",
        by injection htc with htc; rw [← htc]; simp [checkForward, hv]⟩)
      (by decide) (by decide)⟩

/-- Claim C7: for a record carrying a geometry, once reprojection succeeded the
loop simplifies the geometry exactly when its kind is Polygon, MultiPolygon,
LineString or MultiLineString (simplification being statically enabled), with
the fixed tolerance and `highQuality := true`; any other kind — in particular
Point and MultiPoint — keeps the reprojected geometry untouched. -/
theorem processFeature_simplify_iff (proj : ProjLib) (simplifyLib : SimplifyLib)
    (sourceCRS : Option String) (feature : Feature) (geom g : Geometry)
    (hg : feature.geometry = some geom)
    (ht : transformGeometry proj geom (some (jsOr sourceCRS UTM_ZONE_47N)) = Except.ok g) :
    processFeature proj simplifyLib sourceCRS feature =
      Except.ok
        (if g.type = "Polygon" ∨ g.type = "MultiPolygon" ∨ g.type = "LineString" ∨
            g.type = "MultiLineString" then
          { feature with geometry :=
              (simplifyLib { feature with geometry := some g }
                { tolerance := SIMPLIFY_TOLERANCE, highQuality := true }).geometry }
        else
          { feature with geometry := some g }) := by
  unfold processFeature
  rw [hg]
  dsimp only
  rw [ht]
  by_cases hk : g.type = "Polygon" ∨ g.type = "MultiPolygon" ∨ g.type = "LineString" ∨
      g.type = "MultiLineString"
  · rw [if_pos hk]
    rcases hk with h | h | h | h <;> simp [ENABLE_SIMPLIFY, h]
  · rw [if_neg hk]
    push_neg at hk
    obtain ⟨k1, k2, k3, k4⟩ := hk
    simp [ENABLE_SIMPLIFY, k1, k2, k3, k4]

/-- Witness for C7: the concrete point feature is reprojected but, being a
Point, never simplified. -/
theorem processFeature_simplify_iff_witness :
    processFeature projCheck demoSimplify none demoFeature =
      Except.ok
        (if demoPointGeom.type = "Polygon" ∨ demoPointGeom.type = "MultiPolygon" ∨
            demoPointGeom.type = "LineString" ∨ demoPointGeom.type = "MultiLineString" then
          { demoFeature with geometry :=
              (demoSimplify { demoFeature with geometry := some demoPointGeom }
                { tolerance := SIMPLIFY_TOLERANCE, highQuality := true }).geometry }
        else
          { demoFeature with geometry := some demoPointGeom }) :=
  processFeature_simplify_iff projCheck demoSimplify none demoFeature demoPointGeom
    demoPointGeom rfl rfl

theorem addFile_eq_specAddFile (m : List (String × FileSet)) (f : RarFile)
    (hf : lowerStr (extnameOf (basenameOf f.name)) ∈ recognizedExts →
      extnameOf (basenameOf f.name) = lowerStr (extnameOf (basenameOf f.name))) :
    addFile m f = specAddFile m f := by
  obtain ⟨nm, ex⟩ := f
  cases ex with
  | none => rfl
  | some data =>
    simp only [addFile, specAddFile] at *
    by_cases hr : lowerStr (extnameOf (basenameOf nm)) ∈ recognizedExts
    · rw [← hf hr]
    · simp [hr]

theorem foldl_addFile_eq (files : List RarFile) :
    ∀ m : List (String × FileSet),
      (∀ f ∈ files, lowerStr (extnameOf (basenameOf f.name)) ∈ recognizedExts →
        extnameOf (basenameOf f.name) = lowerStr (extnameOf (basenameOf f.name))) →
      files.foldl addFile m = files.foldl specAddFile m := by
  induction files with
  | nil => intro m _; rfl
  | cons f fs ih =>
    intro m hall
    rw [List.foldl_cons, List.foldl_cons,
      addFile_eq_specAddFile m f (hall f (by simp)),
      ih (specAddFile m f) (fun f' hf' => hall f' (by simp [hf']))]

/-- Counterexample to claim C6 as stated: two members whose shapefile
extensions are uppercase are recognized (the extension test lowercases), but
`path.basename(fileName, ext)` only strips the lowercased extension when it is
literally a suffix, so each member is keyed by its full name ("A.SHP", "A.DBF")
instead of the shared base filename "A", and no convertible set results. -/
theorem grouping_key_counterexample :
    ¬ (convertedNames cxUpperFiles = specConvertedNames cxUpperFiles) := by
  decide

/-- Claim C6 as amended: for an archive in which every recognized member's
extension is already lowercase — members whose extension is not recognized are
unconstrained, the grouping skips them either way — the pipeline's grouping
coincides with the spec's extension-stripped grouping, exactly the sets
holding both `.shp` and `.dbf` are converted, and a convertible set without
`.prj` entry falls back to the UTM Zone 47N source CRS. (Members with a
non-lowercase recognized extension are instead keyed by their full filename,
extension intact.) -/
theorem grouping_lowercase (files : List RarFile)
    (hlc : ∀ f ∈ files, lowerStr (extnameOf (basenameOf f.name)) ∈ recognizedExts →
      extnameOf (basenameOf f.name) = lowerStr (extnameOf (basenameOf f.name))) :
    convertedNames files = specConvertedNames files ∧
    ∀ baseName fileSet, (baseName, fileSet) ∈ convertedEntries files →
      lookupKey ".prj" fileSet = none →
      jsOr (parsePrjFile (lookupKey ".prj" fileSet)) UTM_ZONE_47N = UTM_ZONE_47N := by
  constructor
  · unfold convertedNames convertedEntries specConvertedNames buildShapeFiles specBuildShapeFiles
    rw [foldl_addFile_eq files [] hlc]
  · intro baseName fileSet _ hprj
    rw [hprj]
    rfl

/-- Witness for the amended C6: an archive whose recognized members (one
complete set `a` spread over a subdirectory, a lone `b.shx`) have lowercase
extensions, alongside an unrecognized `README.TXT` whose uppercase extension
the amended claim does not constrain. -/
theorem grouping_lowercase_witness :
    (∀ f ∈ demoArchive,
      lowerStr (extnameOf (basenameOf f.name)) ∈ recognizedExts →
      extnameOf (basenameOf f.name) = lowerStr (extnameOf (basenameOf f.name))) ∧
    convertedNames demoArchive = specConvertedNames demoArchive ∧
    convertedNames demoArchive = ["a"] :=
  ⟨by decide, (grouping_lowercase demoArchive (by decide)).1, by decide⟩

theorem setKey_fresh {β : Type} (k : String) (v : β) (m : List (String × β))
    (h : ∀ p ∈ m, p.1 ≠ k) : setKey k v m = m ++ [(k, v)] := by
  induction m with
  | nil => rfl
  | cons p rest ih =>
    unfold setKey
    rw [if_neg (h p (by simp)), ih (fun q hq => h q (by simp [hq]))]
    simp

theorem foldl_setKey_names (results : List NamedResult) :
    ∀ acc : List (String × FeatureCollection),
      (acc.map Prod.fst ++ results.map NamedResult.name).Nodup →
      results.foldl (fun m r => setKey r.name r.geojson m) acc =
        acc ++ results.map (fun r => (r.name, r.geojson)) := by
  induction results with
  | nil => intro acc _; simp
  | cons r rest ih =>
    intro acc hnd
    have hns : ∀ p ∈ acc, p.1 ≠ r.name := by
      intro p hp
      have hdisj := (List.nodup_append.mp hnd).2.2
      exact fun he => hdisj (a := p.1) (List.mem_map_of_mem Prod.fst hp)
        (by rw [he]; simp)
    rw [List.foldl_cons, setKey_fresh r.name r.geojson acc hns]
    rw [ih (acc ++ [(r.name, r.geojson)]) (by simpa using hnd)]
    simp

/-- Claim C8: the output branch writes, with 2-space pretty printing, the lone
FeatureCollection directly when exactly one component set was converted, and
otherwise a plain object mapping each base name to its FeatureCollection
(order preserved, no FeatureCollection wrapper). -/
theorem outputWrite_shape (results : List NamedResult) :
    (∀ r, results = [r] →
      outputWrite results = { doc := OutDoc.single r.geojson, indent := 2 }) ∧
    (1 < results.length → (results.map NamedResult.name).Nodup →
      outputWrite results =
        { doc := OutDoc.combined (results.map (fun r => (r.name, r.geojson))), indent := 2 }) := by
  constructor
  · intro r h
    subst h
    rfl
  · intro hlen hnd
    unfold outputWrite
    rw [if_neg (by omega)]
    rw [foldl_setKey_names results [] (by simpa using hnd)]
    simp

/-- Witness for C8: a singleton result writes its collection directly; two
results write the name-keyed object. -/
theorem outputWrite_shape_witness :
    outputWrite demoResults1 = { doc := OutDoc.single demoFC, indent := 2 } ∧
    outputWrite demoResults2 =
      { doc := OutDoc.combined [("a", demoFC), ("b", demoFC)], indent := 2 } :=
  ⟨(outputWrite_shape demoResults1).1 { name := "a", geojson := demoFC } rfl,
   (outputWrite_shape demoResults2).2 (by decide) (by decide)⟩

theorem batchConvert_length (convert : String → String → Except ErrorVal Unit)
    (sources : List SourceItem) :
    (batchConvert convert sources).length = sources.length := by
  simp [batchConvert]

/-- Claim C9: the driver's outcome list pairs up with the input list position
by position; an item whose conversion throws yields a `failed` outcome carrying
the error's message, an item whose conversion returns yields a `success`
outcome, each independent of every other item; and `batchConvert` itself is a
total function into a plain list — the outermost `try`/`catch` never lets an
error escape. -/
theorem batchConvert_outcomes (convert : String → String → Except ErrorVal Unit)
    (sources : List SourceItem) :
    (batchConvert convert sources).length = sources.length ∧
    (∀ (i : Fin sources.length) (e : ErrorVal),
      convert (sources.get i).url (sources.get i).outputPath = Except.error e →
      (batchConvert convert sources).get (Fin.cast (batchConvert_length convert sources).symm i) =
        { url := (sources.get i).url, outputPath := (sources.get i).outputPath,
          status := Status.failed, error := some e.message }) ∧
    (∀ i : Fin sources.length,
      convert (sources.get i).url (sources.get i).outputPath = Except.ok () →
      (batchConvert convert sources).get (Fin.cast (batchConvert_length convert sources).symm i) =
        { url := (sources.get i).url, outputPath := (sources.get i).outputPath,
          status := Status.success, error := none }) := by
  refine ⟨batchConvert_length convert sources, fun i e he => ?_, fun i ho => ?_⟩
  · simp only [List.get_eq_getElem, Fin.coe_cast] at he ⊢
    simp only [batchConvert, List.getElem_map]
    rw [he]
  · simp only [List.get_eq_getElem, Fin.coe_cast] at ho ⊢
    simp only [batchConvert, List.getElem_map]
    rw [ho]

/-- Witness for C9: three items whose second fetch fails with HTTP 404; the
second outcome is failed with that message, the first is an unaffected
success. -/
theorem batchConvert_outcomes_witness :
    (batchConvert demoConvert demoSources).get
        (Fin.cast (batchConvert_length demoConvert demoSources).symm ⟨1, by decide⟩) =
      { url := "u2", outputPath := "o2", status := Status.failed,
        error := some "HTTP error! status: 404" } ∧
    (batchConvert demoConvert demoSources).get
        (Fin.cast (batchConvert_length demoConvert demoSources).symm ⟨0, by decide⟩) =
      { url := "u1", outputPath := "o1", status := Status.success, error := none } ∧
    (batchConvert demoConvert demoSources).length = 3 :=
  ⟨(batchConvert_outcomes demoConvert demoSources).2.1 ⟨1, by decide⟩
      { message := "HTTP error! status: 404" } rfl,
   (batchConvert_outcomes demoConvert demoSources).2.2 ⟨0, by decide⟩ rfl,
   (batchConvert_outcomes demoConvert demoSources).1⟩

/-- Claim C10: an extraction with no complete component set converts nothing
and throws nothing: the non-single branch writes the empty combined object
(whose serialization is the empty JSON object) with indent 2, and a batch item built on such a
conversion is recorded as a success. -/
theorem convertPhase_empty (processSet : String → FileSet → Except ErrorVal NamedResult)
    (files : List RarFile) (h : convertedEntries files = []) :
    convertPhase processSet files = Except.ok { doc := OutDoc.combined [], indent := 2 } ∧
    ∀ item : SourceItem,
      batchConvert (fun _ _ => (convertPhase processSet files).map (fun _ => ())) [item] =
        [{ url := item.url, outputPath := item.outputPath, status := Status.success,
           error := none }] := by
  have h1 : convertPhase processSet files =
      Except.ok { doc := OutDoc.combined [], indent := 2 } := by
    unfold convertPhase
    rw [h]
    rfl
  refine ⟨h1, fun item => ?_⟩
  simp [batchConvert, h1, Except.map]

/-- Witness for C10: an archive holding only `b.shx` yields no complete set,
writes the empty combined object and is recorded as a success. -/
theorem convertPhase_empty_witness :
    convertPhase demoProcessSet demoShxOnly =
      Except.ok { doc := OutDoc.combined [], indent := 2 } ∧
    batchConvert (fun _ _ => (convertPhase demoProcessSet demoShxOnly).map (fun _ => ()))
        [{ url := "u1", outputPath := "o1" }] =
      [{ url := "u1", outputPath := "o1", status := Status.success, error := none }] :=
  ⟨(convertPhase_empty demoProcessSet demoShxOnly (by decide)).1,
   (convertPhase_empty demoProcessSet demoShxOnly (by decide)).2
     { url := "u1", outputPath := "o1" }⟩
